import Mathlib

/-!
# Verification of the auth-bff-oidc-template session/auth core

Shallow embedding of the repository's session stores
(`src/lib/server/auth/stores/{memory,redis,postgres}.ts`), the OAuth
utilities (`src/lib/server/auth/utils.ts`), the BFF auth service
(`src/lib/server/auth/bff.ts`), the session middleware
(`src/lib/server/auth/middleware.ts`) and the rate limiter
(`src/lib/server/auth/rate-limiter.ts`).

Conventions of the embedding:
* JavaScript epoch-millisecond times and numeric fields are modelled as `Int`
  (`Date.now()` values are integral; JS integer arithmetic on them is exact).
* A JavaScript `Map<string, V>` is modelled as an association list
  `List (String × V)` with first-match lookup and replace-or-append insert.
* `async` code has its suspension points erased; a fallible external call is
  modelled as an `Except Unit` result supplied by the request environment.
* Optional string fields (`accessToken?`, `refreshToken?`, ...) are
  `Option String`; JS truthiness of such a field (`undefined` and `""` are
  falsy) is modelled by `jsTruthy`.
-/

/-! ## Association-list maps (embedding of `Map<string, V>`) -/

/-- First-match lookup, the embedding of `Map.get` (with `?? null`). -/
def lookupA {α : Type} : List (String × α) → String → Option α
  | [], _ => none
  | (k, v) :: rest, key => if k = key then some v else lookupA rest key

/-- Replace-or-append insert, the embedding of `Map.set`. -/
def insertA {α : Type} : List (String × α) → String → α → List (String × α)
  | [], key, v => [(key, v)]
  | (k, w) :: rest, key, v =>
      if k = key then (key, v) :: rest else (k, w) :: insertA rest key v

/-- Removal, the embedding of `Map.delete` / the Redis `DEL`. -/
def eraseA {α : Type} : List (String × α) → String → List (String × α)
  | [], _ => []
  | (k, w) :: rest, key => if k = key then rest else (k, w) :: eraseA rest key

/-! ## Data model (`session-store.ts`) -/

/-- `SessionData` from `src/lib/server/auth/session-store.ts`. -/
structure SessionData where
  sessionId : String
  userId : String
  accessToken : Option String := none
  refreshToken : Option String := none
  idToken : Option String := none
  expiresAt : Int
deriving DecidableEq, Repr

/-- `Partial<SessionData>`: each field is optionally supplied.  A supplied
`some v` for an optional source field carries the new `Option String` value. -/
structure SessionUpdateFields where
  sessionId : Option String := none
  userId : Option String := none
  accessToken : Option (Option String) := none
  refreshToken : Option (Option String) := none
  idToken : Option (Option String) := none
  expiresAt : Option Int := none
deriving DecidableEq, Repr

/-- The object spread `{ ...session, ...updates }` used by every store's
`updateSession`: a supplied field overrides, an absent field is kept. -/
def mergeSession (s : SessionData) (u : SessionUpdateFields) : SessionData :=
  { sessionId := u.sessionId.getD s.sessionId
    userId := u.userId.getD s.userId
    accessToken := u.accessToken.getD s.accessToken
    refreshToken := u.refreshToken.getD s.refreshToken
    idToken := u.idToken.getD s.idToken
    expiresAt := u.expiresAt.getD s.expiresAt }

/-- JS truthiness of an optional string: `undefined` and `""` are falsy. -/
def jsTruthy : Option String → Bool
  | none => false
  | some s => !(s == "")

/-- JS `x || y` on optional strings (used for
`newTokens.refresh_token || session.refreshToken` in the middleware). -/
def jsOrStr (x y : Option String) : Option String :=
  if jsTruthy x then x else y

/-! ## In-memory store (`stores/memory.ts`, `MemorySessionStore`) -/

/-- The `Map<string, SessionData>` held by `MemorySessionStore`. -/
abbrev MemStore := List (String × SessionData)

/-- `MemorySessionStore.createSession`: `this.sessions.set(id, data)`. -/
def memCreateSession (st : MemStore) (s : SessionData) : MemStore :=
  insertA st s.sessionId s

/-- `MemorySessionStore.getSession`: `this.sessions.get(sessionId) ?? null`.
Note: the source performs no expiry check here. -/
def memGetSession (st : MemStore) (sessionId : String) : Option SessionData :=
  lookupA st sessionId

/-- `MemorySessionStore.updateSession`: returns `false` when absent, else
stores the spread-merge and returns `true`. -/
def memUpdateSession (st : MemStore) (sessionId : String)
    (updates : SessionUpdateFields) : Bool × MemStore :=
  match lookupA st sessionId with
  | none => (false, st)
  | some s => (true, insertA st sessionId (mergeSession s updates))

/-- `MemorySessionStore.deleteSession`: `this.sessions.delete(sessionId)`. -/
def memDeleteSession (st : MemStore) (sessionId : String) : Bool × MemStore :=
  match lookupA st sessionId with
  | none => (false, st)
  | some _ => (true, eraseA st sessionId)

/-- `MemorySessionStore.cleanupExpiredSessions`: drops entries with
`session.expiresAt < now`. -/
def memCleanupExpiredSessions (st : MemStore) (now : Int) : MemStore :=
  st.filter (fun kv => !(kv.2.expiresAt < now : Bool))

/-! ## Redis store (`stores/redis.ts`, `RedisSessionStore`)

The Redis value is the JSON serialization of the session; the embedding keeps
the deserialized `SessionData` (JSON round-tripping and the TTL metadata of
`SETEX` are external to the claims; the key prefix is a pure renaming). -/

/-- The keyspace slice owned by a `RedisSessionStore`. -/
abbrev RedisStore := List (String × SessionData)

/-- `RedisSessionStore.createSession`: `SETEX key ttl json` (an upsert). -/
def redisCreateSession (st : RedisStore) (s : SessionData) : RedisStore :=
  insertA st s.sessionId s

/-- `RedisSessionStore.getSession`: `GET`; on a hit whose
`session.expiresAt < now` it deletes the key and returns `null`. -/
def redisGetSession (st : RedisStore) (sessionId : String) (now : Int) :
    Option SessionData × RedisStore :=
  match lookupA st sessionId with
  | none => (none, st)
  | some s =>
      if s.expiresAt < now then (none, eraseA st sessionId) else (some s, st)

/-- `RedisSessionStore.updateSession`: re-reads through `getSession`, then
re-creates with the merged fields. -/
def redisUpdateSession (st : RedisStore) (sessionId : String)
    (updates : SessionUpdateFields) (now : Int) : Bool × RedisStore :=
  match redisGetSession st sessionId now with
  | (none, st1) => (false, st1)
  | (some s, st1) => (true, redisCreateSession st1 (mergeSession s updates))

/-- `RedisSessionStore.deleteSession`: `DEL key`. -/
def redisDeleteSession (st : RedisStore) (sessionId : String) :
    Bool × RedisStore :=
  match lookupA st sessionId with
  | none => (false, st)
  | some _ => (true, eraseA st sessionId)

/-! ## Postgres store (`stores/postgres.ts`, `PostgresSessionStore`)

The `sessions` table, keyed by its `session_id` primary key, is embedded as an
association list of rows. -/

/-- The relational `sessions` table. -/
abbrev PgTable := List (String × SessionData)

/-- `PostgresSessionStore.createSession`: `INSERT ... ON CONFLICT DO UPDATE`
(an upsert on the primary key). -/
def pgCreateSession (t : PgTable) (s : SessionData) : PgTable :=
  insertA t s.sessionId s

/-- `PostgresSessionStore.getSession`: a pure `SELECT` with predicate
`session_id = $1 AND expires_at > $2` where `$2 = Date.now()`.
No row is deleted by this query. -/
def pgGetSession (t : PgTable) (sessionId : String) (now : Int) :
    Option SessionData :=
  match lookupA t sessionId with
  | none => none
  | some s => if now < s.expiresAt then some s else none

/-- `PostgresSessionStore.updateSession`: `getSession`, then upsert of the
merged row via `createSession`. -/
def pgUpdateSession (t : PgTable) (sessionId : String)
    (updates : SessionUpdateFields) (now : Int) : Bool × PgTable :=
  match pgGetSession t sessionId now with
  | none => (false, t)
  | some s => (true, pgCreateSession t (mergeSession s updates))

/-- `PostgresSessionStore.cleanupExpiredSessions`:
`DELETE ... WHERE expires_at < $1`. -/
def pgCleanupExpiredSessions (t : PgTable) (now : Int) : PgTable :=
  t.filter (fun kv => !(kv.2.expiresAt < now : Bool))

/-! ## OAuth utilities (`utils.ts`) -/

/-- `isValidState`: the argument is a string (guaranteed by the type here)
of length at least 16. -/
def isValidState (state : String) : Bool :=
  decide (16 ≤ state.length)

/-- `isValidTimestamp`: `now - timestamp < 10 * 60 * 1000`. -/
def isValidTimestamp (now timestamp : Int) : Bool :=
  decide (now - timestamp < 600000)

/-- JSON values, as produced by `JSON.parse` (numbers restricted to the
integral values the code uses). -/
inductive Json where
  | null : Json
  | bool (b : Bool) : Json
  | num (n : Int) : Json
  | str (s : String) : Json
  | arr (elems : List Json) : Json
  | obj (fields : List (String × Json)) : Json

/-- JS member access `parsed.k` on a `JSON.parse` result: an object field
lookup, `undefined` (here `none`) on anything else. -/
def getField : Json → String → Option Json
  | Json.obj fields, key => lookupA fields key
  | _, _ => none

/-- The validated OAuth transaction data `{ state, codeVerifier, timestamp }`. -/
structure OAuthState where
  state : String
  codeVerifier : String
  timestamp : Int
deriving DecidableEq, Repr

/-- `parseOAuthState`: takes the outcome of `JSON.parse(stateData)` (a throw
is the `Except.error` case, caught by the source's `try/catch`), checks the
three field types, `isValidState` and `isValidTimestamp`, and returns the
parsed transaction or `null`. -/
def parseOAuthState (now : Int) (parseResult : Except Unit Json) :
    Option OAuthState :=
  match parseResult with
  | Except.error _ => none
  | Except.ok parsed =>
      match getField parsed "state", getField parsed "codeVerifier",
            getField parsed "timestamp" with
      | some (Json.str s), some (Json.str cv), some (Json.num ts) =>
          if isValidState s && isValidTimestamp now ts then
            some ⟨s, cv, ts⟩
          else none
      | _, _, _ => none

/-! ## Rate limiter (`rate-limiter.ts`, class `RateLimiter`) -/

/-- `RateLimitRecord` from `rate-limiter.ts`. -/
structure RateLimitRecord where
  count : Nat
  resetTime : Int
deriving DecidableEq, Repr

/-- The `maxRequests`/`windowMs` slice of `Required<RateLimitOptions>`. -/
structure RLConfig where
  maxRequests : Nat
  windowMs : Int
deriving DecidableEq, Repr

/-- The `records : Map<string, RateLimitRecord>` of a `RateLimiter`. -/
abbrev RLState := List (String × RateLimitRecord)

/-- The `{ allowed, remaining, resetTime }` result of `RateLimiter.check`. -/
structure CheckResult where
  allowed : Bool
  remaining : Int
  resetTime : Int
deriving DecidableEq, Repr

/-- The result lines of `RateLimiter.check` applied to the effective record:
`allowed = record.count < maxRequests`,
`remaining = Math.max(0, maxRequests - record.count - 1)`. -/
def mkCheckResult (cfg : RLConfig) (r : RateLimitRecord) : CheckResult :=
  { allowed := decide (r.count < cfg.maxRequests)
    remaining := max 0 ((cfg.maxRequests : Int) - (r.count : Int) - 1)
    resetTime := r.resetTime }

/-- `RateLimiter.check(ip)`: re-initializes the record when absent or when
`record.resetTime < now`, then reports admission without consuming quota. -/
def check (cfg : RLConfig) (st : RLState) (ip : String) (now : Int) :
    CheckResult × RLState :=
  match lookupA st ip with
  | none =>
      let r : RateLimitRecord := ⟨0, now + cfg.windowMs⟩
      (mkCheckResult cfg r, insertA st ip r)
  | some r0 =>
      if r0.resetTime < now then
        let r : RateLimitRecord := ⟨0, now + cfg.windowMs⟩
        (mkCheckResult cfg r, insertA st ip r)
      else (mkCheckResult cfg r0, st)

/-- `RateLimiter.increment(ip)`: bumps the count of an existing record only. -/
def increment (st : RLState) (ip : String) : RLState :=
  match lookupA st ip with
  | none => st
  | some r => insertA st ip ⟨r.count + 1, r.resetTime⟩

/-- The sequential check-then-increment usage of the middleware in
`rateLimitMiddleware`: each admitted request increments; a denied request
does not (the 429 is thrown before `increment`).  Returns the final record
table and the number of admitted requests. -/
def runSeq (cfg : RLConfig) (ip : String) :
    RLState → Nat → List Int → RLState × Nat
  | st, admitted, [] => (st, admitted)
  | st, admitted, t :: ts =>
      let res := check cfg st ip t
      if res.1.allowed then runSeq cfg ip (increment res.2 ip) (admitted + 1) ts
      else runSeq cfg ip res.2 admitted ts

/-- Written from the spec's words (§4.5 `check(key)`), for comparison with
the source-derived `check`: the record observed by a `check` call is the
stored one, re-initialized to `count = 0, resetTime = now + windowMs` when no
record exists or the window has elapsed. -/
def effectiveRecordSpec (cfg : RLConfig) (st : RLState) (ip : String)
    (now : Int) : RateLimitRecord :=
  match lookupA st ip with
  | none => ⟨0, now + cfg.windowMs⟩
  | some r => if r.resetTime < now then ⟨0, now + cfg.windowMs⟩ else r

/-- Written from the spec's words (§4.5 `check(key)`): returns
`allowed = count < maxRequests`, `remaining = max(0, maxRequests - count - 1)`
and the effective record's `resetTime`. -/
def checkSpecModel (cfg : RLConfig) (st : RLState) (ip : String) (now : Int) :
    CheckResult :=
  mkCheckResult cfg (effectiveRecordSpec cfg st ip now)

/-! ## PKCE generation (`bff.ts`, `BFFAuthService.generatePKCE`)

`crypto.randomBytes(32)` and `crypto.createHash("sha256")` are external
(Node `crypto`); the embedding takes the 32 random bytes and the SHA-256
compression as parameters and keeps the base64url encoding concrete. -/

/-- The base64url alphabet used by `Buffer.toString("base64url")`. -/
def base64urlAlphabet : List Char :=
  "ABCDEFGHIJKLMNOPQRSTUVWXYZabcdefghijklmnopqrstuvwxyz0123456789-_".data

/-- One sextet to one base64url character. -/
def base64urlChar (n : Nat) : Char :=
  base64urlAlphabet.getD n 'A'

/-- Unpadded base64url of a byte list (Node's `"base64url"` encoding). -/
def base64urlEncode : List Nat → List Char
  | [] => []
  | [b1] =>
      [base64urlChar (b1 / 4), base64urlChar (b1 % 4 * 16)]
  | [b1, b2] =>
      [base64urlChar (b1 / 4), base64urlChar (b1 % 4 * 16 + b2 / 16),
       base64urlChar (b2 % 16 * 4)]
  | b1 :: b2 :: b3 :: rest =>
      base64urlChar (b1 / 4) :: base64urlChar (b1 % 4 * 16 + b2 / 16) ::
      base64urlChar (b2 % 16 * 4 + b3 / 64) :: base64urlChar (b3 % 64) ::
      base64urlEncode rest

/-- The byte sequence `hash.update(s)` consumes: the UTF-8 encoding of `s`,
which for the ASCII output of `base64urlEncode` is the code points. -/
def utf8Bytes (s : String) : List Nat :=
  s.data.map Char.toNat

/-- `BFFAuthService.generatePKCE`, parameterized by the 32 bytes delivered by
`crypto.randomBytes(32)` and by the SHA-256 function of `createHash`:
`codeVerifier = base64url(randomBytes)`,
`codeChallenge = base64url(sha256(utf8(codeVerifier)))`.
Returns `(codeVerifier, codeChallenge)`. -/
def generatePKCE (sha256 : List Nat → List Nat) (randomBytes32 : List Nat) :
    String × String :=
  let codeVerifier := String.mk (base64urlEncode randomBytes32)
  let codeChallenge :=
    String.mk (base64urlEncode (sha256 (utf8Bytes codeVerifier)))
  (codeVerifier, codeChallenge)

/-! ## Auth service predicates (`bff.ts`) -/

/-- `BFFAuthService.shouldRefreshToken`:
`session.expiresAt - Date.now() < 300000`. -/
def shouldRefreshToken (session : SessionData) (now : Int) : Bool :=
  decide (session.expiresAt - now < 300000)

/-! ## Session middleware (`middleware.ts`, `authMiddleware`)

The middleware observes, in order: the `session_id` cookie, one
`authService.getSession` lookup, optionally one provider `refreshToken`
exchange, one `authService.updateSession` and one re-read
`authService.getSession`.  `BFFAuthService` session methods are transparent
delegations to the store (no `try/catch` of their own, bff.ts 175-178), so a
store throw surfaces at the middleware call site; a throwing call is the
`Except.error` case of the corresponding environment field. -/

/-- The token endpoint's JSON for a `refresh_token` grant (`TokenResponse`
in `bff.ts`, the fields the middleware reads). -/
structure TokenResponse where
  access_token : String
  refresh_token : Option String := none
  expires_in : Int
deriving DecidableEq, Repr

/-- Per-request environment: current time and the outcomes of the external
calls the middleware can make, in call order.  `lookup` and `relookup` are
the first and second `getSession`; distinct fields, because the store may
answer the two calls differently. -/
structure MWEnv where
  now : Int
  lookup : String → Except Unit (Option SessionData)
  refresh : String → Except Unit TokenResponse
  update : String → SessionUpdateFields → Except Unit Bool
  relookup : String → Except Unit (Option SessionData)

/-- The identity injected into `event.locals.user`. -/
structure AuthUser where
  userId : String
  sessionId : String
deriving DecidableEq, Repr

/-- What the middleware leaves behind for the downstream handler: whether it
deleted the `session_id` cookie, and the `event.locals` identity context. -/
structure MWResult where
  cookieCleared : Bool
  user : Option AuthUser
  accessToken : Option String
deriving DecidableEq, Repr

/-- The state-2 outcome: cookie deleted, empty identity context. -/
def mwCleared : MWResult := ⟨true, none, none⟩

/-- `authMiddleware` from `middleware.ts`.  An uncaught throw is an
`Except.error`; every `return resolve(event)` is an `Except.ok` carrying the
cookie/locals outcome. -/
def authMiddleware (env : MWEnv) (sessionIdCookie : Option String) :
    Except Unit MWResult :=
  match sessionIdCookie with
  | none => Except.ok ⟨false, none, none⟩
  | some sessionId =>
      match env.lookup sessionId with
      | Except.error e => Except.error e
      | Except.ok sessionOpt =>
          match sessionOpt with
          | none => Except.ok mwCleared
          | some session =>
              if session.expiresAt < env.now then Except.ok mwCleared
              else if shouldRefreshToken session env.now
                  && jsTruthy session.refreshToken then
                match env.refresh (session.refreshToken.getD "") with
                | Except.error _ => Except.ok mwCleared
                | Except.ok newTokens =>
                    let upd : SessionUpdateFields :=
                      { accessToken := some (some newTokens.access_token)
                        refreshToken := some (jsOrStr newTokens.refresh_token
                          session.refreshToken)
                        expiresAt :=
                          some (env.now + newTokens.expires_in * 1000) }
                    match env.update sessionId upd with
                    | Except.error _ => Except.ok mwCleared
                    | Except.ok false => Except.ok mwCleared
                    | Except.ok true =>
                        match env.relookup sessionId with
                        | Except.error _ => Except.ok mwCleared
                        | Except.ok (some us) =>
                            Except.ok ⟨false,
                              some ⟨us.userId, us.sessionId⟩, us.accessToken⟩
                        | Except.ok none => Except.ok ⟨false, none, none⟩
              else
                Except.ok ⟨false,
                  some ⟨session.userId, session.sessionId⟩,
                  session.accessToken⟩

/-! ## Concrete fixtures for counterexamples and witnesses -/

/-- A session whose access token expired at epoch-ms 1000. -/
def exSessionExpired : SessionData :=
  { sessionId := "sid", userId := "alice", accessToken := some "tok"
    refreshToken := some "rt", idToken := none, expiresAt := 1000 }

/-- A session still live at epoch-ms 100000. -/
def exSessionLive : SessionData :=
  { sessionId := "sid", userId := "alice", accessToken := some "tok"
    refreshToken := some "rt", idToken := none, expiresAt := 200000 }

/-- A store holding exactly the expired session under `"sid"`. -/
def exStoreExpired : List (String × SessionData) := [("sid", exSessionExpired)]

/-- A session inside its refresh window (`expiresAt - now = 100000 < 300000`
at `now = 1000000`) that carries no refresh token. -/
def exSessionNoRT : SessionData :=
  { sessionId := "sid", userId := "alice", accessToken := some "tok"
    refreshToken := none, idToken := none, expiresAt := 1100000 }

/-- A session inside its refresh window at `now = 1000000` with a refresh
token present. -/
def exSessionRefreshable : SessionData :=
  { sessionId := "sid", userId := "alice", accessToken := some "tok"
    refreshToken := some "rt", idToken := none, expiresAt := 1100000 }

/-- Request environment: the store lookup finds `exSessionNoRT`. -/
def exEnvC2 : MWEnv :=
  { now := 1000000
    lookup := fun _ => Except.ok (some exSessionNoRT)
    refresh := fun _ => Except.error ()
    update := fun _ _ => Except.error ()
    relookup := fun _ => Except.ok none }

/-- Request environment whose initial store lookup throws. -/
def exEnvLookupFails : MWEnv :=
  { now := 1000000
    lookup := fun _ => Except.error ()
    refresh := fun _ => Except.error ()
    update := fun _ _ => Except.error ()
    relookup := fun _ => Except.error () }

/-- Request environment: lookup succeeds, the refresh exchange succeeds, but
the store's `updateSession` throws. -/
def exEnvUpdateFails : MWEnv :=
  { now := 1000000
    lookup := fun _ => Except.ok (some exSessionRefreshable)
    refresh := fun _ => Except.ok ⟨"newtok", some "newrt", 3600⟩
    update := fun _ _ => Except.error ()
    relookup := fun _ => Except.ok none }

/-- Request environment: lookup succeeds but the provider refresh exchange
throws. -/
def exEnvRefreshFails : MWEnv :=
  { now := 1000000
    lookup := fun _ => Except.ok (some exSessionRefreshable)
    refresh := fun _ => Except.error ()
    update := fun _ _ => Except.ok true
    relookup := fun _ => Except.ok none }

/-- Request environment: lookup, refresh and update succeed but the re-read
`getSession` throws. -/
def exEnvRelookupFails : MWEnv :=
  { now := 1000000
    lookup := fun _ => Except.ok (some exSessionRefreshable)
    refresh := fun _ => Except.ok ⟨"newtok", some "newrt", 3600⟩
    update := fun _ _ => Except.ok true
    relookup := fun _ => Except.error () }

/-- An update payload touching only `accessToken`. -/
def exUpdateTok : SessionUpdateFields := { accessToken := some (some "tok2") }

/-- A well-typed transaction cookie JSON whose `timestamp` is 0. -/
def exJsonOld : Json :=
  Json.obj [("state", Json.str "0123456789abcdef"),
            ("codeVerifier", Json.str "ver"),
            ("timestamp", Json.num 0)]

/-- A well-typed transaction cookie JSON bearing a far-future `timestamp`. -/
def exJsonFuture : Json :=
  Json.obj [("state", Json.str "0123456789abcdef"),
            ("codeVerifier", Json.str "ver"),
            ("timestamp", Json.num 100000000000000)]

/-! ## Helper lemmas on association lists -/

theorem lookupA_insertA_self {α : Type} (st : List (String × α)) (k : String)
    (v : α) : lookupA (insertA st k v) k = some v := by
  induction st with
  | nil => simp [insertA, lookupA]
  | cons kv rest ih =>
      obtain ⟨k', v'⟩ := kv
      by_cases h : k' = k
      · simp [insertA, h, lookupA]
      · simp [insertA, h, lookupA, ih]

theorem insertA_insertA_self {α : Type} (st : List (String × α)) (k : String)
    (v : α) : insertA (insertA st k v) k v = insertA st k v := by
  induction st with
  | nil => simp [insertA]
  | cons kv rest ih =>
      obtain ⟨k', v'⟩ := kv
      by_cases h : k' = k
      · simp [insertA, h]
      · simp [insertA, h, ih]

/-! ## Claim theorems -/

/-- C6: `shouldRefreshToken(session)` returns true exactly when
`session.expiresAt - now < 5 minutes (300000 ms)`, and false otherwise. -/
theorem claim_C6 (session : SessionData) (now : Int) :
    shouldRefreshToken session now = true ↔
      session.expiresAt - now < 300000 := by
  simp [shouldRefreshToken]

/-- C9: `RateLimiter.check` is idempotent as an observation: a second
`check` at the same time, with no `increment` between, returns the same
`{allowed, remaining, resetTime}` and leaves the record table (hence the
record's count) exactly as after the first — `check` never consumes quota. -/
theorem claim_C9 (cfg : RLConfig) (st : RLState) (ip : String) (now : Int) :
    check cfg (check cfg st ip now).2 ip now = check cfg st ip now := by
  cases h : lookupA st ip with
  | none =>
      by_cases hw : now + cfg.windowMs < now <;>
        simp [check, h, lookupA_insertA_self, insertA_insertA_self, hw]
  | some r0 =>
      by_cases hr : r0.resetTime < now
      · by_cases hw : now + cfg.windowMs < now <;>
          simp [check, h, hr, lookupA_insertA_self, insertA_insertA_self, hw]
      · simp [check, h, hr]

/-- C1 (counterexample): the in-memory variant's `getSession`, called at
`now = 100000` on a stored session whose `expiresAt = 1000` is strictly in
the past, returns the session itself (not "not found") and deletes nothing —
refuting both the eager-delete behavior and the claim that no variant's
`getSession` ever returns a session whose `expiresAt` is in the past. -/
theorem claim_C1_counterexample :
    memGetSession exStoreExpired "sid" = some exSessionExpired
    ∧ exSessionExpired.expiresAt < 100000 := by
  exact ⟨rfl, by decide⟩

/-- C1 (amended): the relational variant's `getSession` never returns an
expired session (the SQL predicate `expires_at > now` filters it) but deletes
nothing; the Redis variant returns "not found" for an expired stored session
and eagerly deletes it; the in-memory variant returns whatever is stored,
with no expiry filtering (expiry is handled by the middleware instead). -/
theorem claim_C1 (table : PgTable) (rst : RedisStore) (mst : MemStore)
    (id : String) (now : Int) (s sr sm : SessionData)
    (hpg : pgGetSession table id now = some s)
    (hr : lookupA rst id = some sr) (hre : sr.expiresAt < now)
    (hm : lookupA mst id = some sm) :
    now < s.expiresAt
    ∧ redisGetSession rst id now = (none, eraseA rst id)
    ∧ memGetSession mst id = some sm := by
  refine ⟨?_, ?_, hm⟩
  · unfold pgGetSession at hpg
    cases hl : lookupA table id with
    | none => rw [hl] at hpg; cases hpg
    | some s0 =>
        rw [hl] at hpg
        dsimp only at hpg
        by_cases hx : now < s0.expiresAt
        · rw [if_pos hx] at hpg
          cases hpg
          exact hx
        · rw [if_neg hx] at hpg; cases hpg
  · unfold redisGetSession
    rw [hr]
    dsimp only
    rw [if_pos hre]

/-- C1 witness: the amended behavior at concrete stores and `now = 100000`. -/
theorem claim_C1_witness :
    pgGetSession [("sid", exSessionLive)] "sid" 100000 = some exSessionLive
    ∧ lookupA exStoreExpired "sid" = some exSessionExpired
    ∧ exSessionExpired.expiresAt < 100000
    ∧ ((100000 : Int) < exSessionLive.expiresAt
      ∧ redisGetSession exStoreExpired "sid" 100000
          = (none, eraseA exStoreExpired "sid")
      ∧ memGetSession exStoreExpired "sid" = some exSessionExpired) := by
  exact ⟨rfl, rfl, by decide,
    claim_C1 [("sid", exSessionLive)] exStoreExpired exStoreExpired "sid"
      100000 exSessionLive exSessionExpired exSessionExpired rfl rfl
      (by decide) rfl⟩

/-- C8 (counterexample): at `now = 100000` the in-memory store holds a
session under `"sid"` whose `expiresAt = 1000` has passed — a logically
absent session by the spec's own invariant — yet `updateSession` merges the
fields, mutates the store and returns `true` rather than `false`. -/
theorem claim_C8_counterexample :
    exSessionExpired.expiresAt < 100000
    ∧ (memUpdateSession exStoreExpired "sid" exUpdateTok).1 = true
    ∧ (memUpdateSession exStoreExpired "sid" exUpdateTok).2 ≠ exStoreExpired := by
  refine ⟨by decide, rfl, by decide⟩

/-- C8 (amended): on an id with no physically stored record, `updateSession`
returns false, leaves the store unchanged and never creates, in every
variant; when a record is physically present, the in-memory variant merges
exactly the given fields and returns true regardless of expiry, the Redis
variant treats an expired record as absent — returning false and deleting
it — the relational variant returns false for an expired row without
deleting it, and on a present unexpired record the Redis and relational
variants likewise store exactly the merged fields and return true. -/
theorem claim_C8 (mst mst2 : MemStore) (rst rst2 rst3 : RedisStore)
    (table table2 table3 : PgTable) (id : String) (u : SessionUpdateFields)
    (now : Int) (s s2 s3 s4 s5 : SessionData)
    (hm : lookupA mst id = none)
    (hr : lookupA rst id = none)
    (hp : lookupA table id = none)
    (hm2 : lookupA mst2 id = some s)
    (hr2 : lookupA rst2 id = some s2) (hr2e : s2.expiresAt < now)
    (hp2 : lookupA table2 id = some s3) (hp2e : s3.expiresAt ≤ now)
    (hr3 : lookupA rst3 id = some s4) (hr3e : ¬ s4.expiresAt < now)
    (hp3 : lookupA table3 id = some s5) (hp3e : now < s5.expiresAt) :
    memUpdateSession mst id u = (false, mst)
    ∧ redisUpdateSession rst id u now = (false, rst)
    ∧ pgUpdateSession table id u now = (false, table)
    ∧ memUpdateSession mst2 id u = (true, insertA mst2 id (mergeSession s u))
    ∧ redisUpdateSession rst2 id u now = (false, eraseA rst2 id)
    ∧ pgUpdateSession table2 id u now = (false, table2)
    ∧ redisUpdateSession rst3 id u now
        = (true, redisCreateSession rst3 (mergeSession s4 u))
    ∧ pgUpdateSession table3 id u now
        = (true, pgCreateSession table3 (mergeSession s5 u)) := by
  refine ⟨?_, ?_, ?_, ?_, ?_, ?_, ?_, ?_⟩
  · unfold memUpdateSession
    rw [hm]
  · unfold redisUpdateSession redisGetSession
    rw [hr]
  · unfold pgUpdateSession pgGetSession
    rw [hp]
  · unfold memUpdateSession
    rw [hm2]
  · unfold redisUpdateSession redisGetSession
    rw [hr2]
    dsimp only
    rw [if_pos hr2e]
  · unfold pgUpdateSession pgGetSession
    rw [hp2]
    dsimp only
    rw [if_neg (by omega : ¬ now < s3.expiresAt)]
  · unfold redisUpdateSession redisGetSession
    rw [hr3]
    dsimp only
    rw [if_neg hr3e]
  · unfold pgUpdateSession pgGetSession
    rw [hp3]
    dsimp only
    rw [if_pos hp3e]

/-- C8 witness: the amended behavior at concrete stores and `now = 100000`:
absent ids in all three variants, a present record merged by the in-memory
store, an expired record rejected by the Redis and relational stores, and a
live record merged with success by the Redis and relational stores. -/
theorem claim_C8_witness :
    lookupA ([] : MemStore) "sid" = none
    ∧ lookupA exStoreExpired "sid" = some exSessionExpired
    ∧ exSessionExpired.expiresAt < 100000
    ∧ lookupA [("sid", exSessionLive)] "sid" = some exSessionLive
    ∧ ¬ exSessionLive.expiresAt < (100000 : Int)
    ∧ (100000 : Int) < exSessionLive.expiresAt
    ∧ (memUpdateSession ([] : MemStore) "sid" exUpdateTok = (false, [])
      ∧ redisUpdateSession ([] : RedisStore) "sid" exUpdateTok 100000
          = (false, [])
      ∧ pgUpdateSession ([] : PgTable) "sid" exUpdateTok 100000 = (false, [])
      ∧ memUpdateSession exStoreExpired "sid" exUpdateTok
          = (true, insertA exStoreExpired "sid"
              (mergeSession exSessionExpired exUpdateTok))
      ∧ redisUpdateSession exStoreExpired "sid" exUpdateTok 100000
          = (false, eraseA exStoreExpired "sid")
      ∧ pgUpdateSession exStoreExpired "sid" exUpdateTok 100000
          = (false, exStoreExpired)
      ∧ redisUpdateSession [("sid", exSessionLive)] "sid" exUpdateTok 100000
          = (true, redisCreateSession [("sid", exSessionLive)]
              (mergeSession exSessionLive exUpdateTok))
      ∧ pgUpdateSession [("sid", exSessionLive)] "sid" exUpdateTok 100000
          = (true, pgCreateSession [("sid", exSessionLive)]
              (mergeSession exSessionLive exUpdateTok))) := by
  exact ⟨rfl, rfl, by decide, rfl, by decide, by decide,
    claim_C8 [] exStoreExpired [] exStoreExpired [("sid", exSessionLive)] []
      exStoreExpired [("sid", exSessionLive)] "sid" exUpdateTok 100000
      exSessionExpired exSessionExpired exSessionExpired exSessionLive
      exSessionLive rfl rfl rfl rfl rfl (by decide) rfl (by decide) rfl
      (by decide) rfl (by decide)⟩

/-- C2 (counterexample): a request at `now = 1000000` whose session is found,
unexpired (`expiresAt = 1100000`), due for refresh
(`expiresAt - now = 100000 < 300000`) and without a refresh token is answered
with the session's identity injected and the cookie kept — not the state-2
cleared/unauthenticated outcome the claim asserts. -/
theorem claim_C2_counterexample :
    shouldRefreshToken exSessionNoRT 1000000 = true
    ∧ exSessionNoRT.refreshToken = none
    ∧ ¬ exSessionNoRT.expiresAt < 1000000
    ∧ authMiddleware exEnvC2 (some "sid")
        = Except.ok ⟨false, some ⟨"alice", "sid"⟩, some "tok"⟩
    ∧ (⟨false, some ⟨"alice", "sid"⟩, some "tok"⟩ : MWResult) ≠ mwCleared := by
  refine ⟨by decide, rfl, by decide, rfl, by decide⟩

/-- C2 (amended): when the session is found, not expired, `shouldRefreshToken`
is true but no (truthy) refresh token is present, the middleware behaves as in
state 3: it injects `{userId, sessionId}` and the current access token into
the request context and does not clear the client-side session identifier. -/
theorem claim_C2 (env : MWEnv) (sid : String) (session : SessionData)
    (h1 : env.lookup sid = Except.ok (some session))
    (h2 : ¬ session.expiresAt < env.now)
    (h3 : shouldRefreshToken session env.now = true)
    (h4 : jsTruthy session.refreshToken = false) :
    authMiddleware env (some sid)
      = Except.ok ⟨false, some ⟨session.userId, session.sessionId⟩,
          session.accessToken⟩ := by
  unfold authMiddleware
  dsimp only
  rw [h1]
  dsimp only
  rw [if_neg h2, h3, h4]
  simp

/-- C2 witness: the amended behavior at the concrete environment `exEnvC2`. -/
theorem claim_C2_witness :
    exEnvC2.lookup "sid" = Except.ok (some exSessionNoRT)
    ∧ ¬ exSessionNoRT.expiresAt < exEnvC2.now
    ∧ shouldRefreshToken exSessionNoRT exEnvC2.now = true
    ∧ jsTruthy exSessionNoRT.refreshToken = false
    ∧ authMiddleware exEnvC2 (some "sid")
        = Except.ok ⟨false, some ⟨exSessionNoRT.userId,
            exSessionNoRT.sessionId⟩, exSessionNoRT.accessToken⟩ := by
  exact ⟨rfl, by decide, by decide, rfl,
    claim_C2 exEnvC2 "sid" exSessionNoRT rfl (by decide) (by decide) rfl⟩

/-- C3 (counterexample): a failure of the initial `getSession` lookup is not
caught — the middleware's result is the propagated error, contradicting the
claim that no session-store failure ever escapes to the route handler. -/
theorem claim_C3_counterexample :
    exEnvLookupFails.lookup "sid" = Except.error ()
    ∧ authMiddleware exEnvLookupFails (some "sid") = Except.error () := by
  exact ⟨rfl, rfl⟩

/-- C3 (amended): once the initial `getSession` lookup returns, the
middleware never propagates an error, and every failure inside the `try`
block — the provider refresh exchange, the store's `updateSession`, or the
re-read `getSession` — degrades to the cleared unauthenticated outcome
(cookie deleted, empty identity context); but a failure of the initial
`getSession` lookup itself propagates to the caller. -/
theorem claim_C3 (env envR envU envL envErr : MWEnv) (sid : String)
    (v : Option SessionData) (s : SessionData) (tokU tokL : TokenResponse)
    (h0 : env.lookup sid = Except.ok v)
    (hR1 : envR.lookup sid = Except.ok (some s))
    (hR2 : ¬ s.expiresAt < envR.now)
    (hR3 : shouldRefreshToken s envR.now = true)
    (hRT : jsTruthy s.refreshToken = true)
    (hR5 : envR.refresh (s.refreshToken.getD "") = Except.error ())
    (hU1 : envU.lookup sid = Except.ok (some s))
    (hU2 : ¬ s.expiresAt < envU.now)
    (hU3 : shouldRefreshToken s envU.now = true)
    (hU5 : envU.refresh (s.refreshToken.getD "") = Except.ok tokU)
    (hU6 : ∀ w, envU.update sid w = Except.error ())
    (hL1 : envL.lookup sid = Except.ok (some s))
    (hL2 : ¬ s.expiresAt < envL.now)
    (hL3 : shouldRefreshToken s envL.now = true)
    (hL5 : envL.refresh (s.refreshToken.getD "") = Except.ok tokL)
    (hL6 : ∀ w, envL.update sid w = Except.ok true)
    (hL7 : envL.relookup sid = Except.error ())
    (herr : envErr.lookup sid = Except.error ()) :
    (∃ r, authMiddleware env (some sid) = Except.ok r)
    ∧ authMiddleware envR (some sid) = Except.ok mwCleared
    ∧ authMiddleware envU (some sid) = Except.ok mwCleared
    ∧ authMiddleware envL (some sid) = Except.ok mwCleared
    ∧ authMiddleware envErr (some sid) = Except.error () := by
  refine ⟨?_, ?_, ?_, ?_, ?_⟩
  · unfold authMiddleware
    dsimp only
    rw [h0]
    dsimp only
    cases v with
    | none => exact ⟨_, rfl⟩
    | some session =>
        dsimp only
        by_cases he : session.expiresAt < env.now
        · rw [if_pos he]; exact ⟨_, rfl⟩
        · rw [if_neg he]
          by_cases hc : (shouldRefreshToken session env.now
              && jsTruthy session.refreshToken) = true
          · rw [if_pos hc]
            cases env.refresh (session.refreshToken.getD "") with
            | error e => exact ⟨_, rfl⟩
            | ok newTokens =>
                dsimp only
                cases env.update sid
                    { accessToken := some (some newTokens.access_token)
                      refreshToken := some (jsOrStr newTokens.refresh_token
                        session.refreshToken)
                      expiresAt :=
                        some (env.now + newTokens.expires_in * 1000) } with
                | error e => exact ⟨_, rfl⟩
                | ok b =>
                    cases b with
                    | false => exact ⟨_, rfl⟩
                    | true =>
                        cases env.relookup sid with
                        | error e => exact ⟨_, rfl⟩
                        | ok us =>
                            cases us with
                            | none => exact ⟨_, rfl⟩
                            | some u => exact ⟨_, rfl⟩
          · rw [if_neg hc]; exact ⟨_, rfl⟩
  · unfold authMiddleware
    dsimp only
    rw [hR1]
    dsimp only
    rw [if_neg hR2, hR3, hRT]
    simp [hR5]
  · unfold authMiddleware
    dsimp only
    rw [hU1]
    dsimp only
    rw [if_neg hU2, hU3, hRT]
    simp [hU5, hU6]
  · unfold authMiddleware
    dsimp only
    rw [hL1]
    dsimp only
    rw [if_neg hL2, hL3, hRT]
    simp [hL5, hL6, hL7]
  · unfold authMiddleware
    dsimp only
    rw [herr]

/-- C3 witness: at `exEnvRefreshFails`, `exEnvUpdateFails` and
`exEnvRelookupFails` (lookup succeeds; then the refresh exchange, the store
`updateSession`, or the re-read `getSession` throws, respectively) the
middleware answers with the cleared unauthenticated outcome, while at
`exEnvLookupFails` the initial lookup error propagates. -/
theorem claim_C3_witness :
    exEnvUpdateFails.lookup "sid" = Except.ok (some exSessionRefreshable)
    ∧ exEnvRefreshFails.lookup "sid" = Except.ok (some exSessionRefreshable)
    ∧ exEnvRelookupFails.lookup "sid" = Except.ok (some exSessionRefreshable)
    ∧ ¬ exSessionRefreshable.expiresAt < (1000000 : Int)
    ∧ shouldRefreshToken exSessionRefreshable 1000000 = true
    ∧ jsTruthy exSessionRefreshable.refreshToken = true
    ∧ exEnvRefreshFails.refresh (exSessionRefreshable.refreshToken.getD "")
        = Except.error ()
    ∧ (∀ w, exEnvUpdateFails.update "sid" w = Except.error ())
    ∧ (∀ w, exEnvRelookupFails.update "sid" w = Except.ok true)
    ∧ exEnvRelookupFails.relookup "sid" = Except.error ()
    ∧ exEnvLookupFails.lookup "sid" = Except.error ()
    ∧ ((∃ r, authMiddleware exEnvUpdateFails (some "sid") = Except.ok r)
      ∧ authMiddleware exEnvRefreshFails (some "sid") = Except.ok mwCleared
      ∧ authMiddleware exEnvUpdateFails (some "sid") = Except.ok mwCleared
      ∧ authMiddleware exEnvRelookupFails (some "sid") = Except.ok mwCleared
      ∧ authMiddleware exEnvLookupFails (some "sid") = Except.error ()) := by
  exact ⟨rfl, rfl, rfl, by decide, by decide, by decide, rfl, fun _ => rfl,
    fun _ => rfl, rfl, rfl,
    claim_C3 exEnvUpdateFails exEnvRefreshFails exEnvUpdateFails
      exEnvRelookupFails exEnvLookupFails "sid" (some exSessionRefreshable)
      exSessionRefreshable ⟨"newtok", some "newrt", 3600⟩
      ⟨"newtok", some "newrt", 3600⟩ rfl rfl (by decide) (by decide)
      (by decide) rfl rfl (by decide) (by decide) rfl (fun _ => rfl) rfl
      (by decide) (by decide) rfl (fun _ => rfl) rfl rfl⟩

/-- Unfolding of `parseOAuthState` on a successful `JSON.parse`. -/
theorem parseOAuthState_ok (now : Int) (j : Json) :
    parseOAuthState now (Except.ok j) =
      match getField j "state", getField j "codeVerifier",
            getField j "timestamp" with
      | some (Json.str s), some (Json.str cv), some (Json.num ts) =>
          if isValidState s && isValidTimestamp now ts then
            some ⟨s, cv, ts⟩
          else none
      | _, _, _ => none := rfl

/-- C7: a transaction cookie whose `timestamp` lies more than 10 minutes
(600000 ms) before the current time fails `isValidTimestamp`, and
`parseOAuthState` rejects it (returns `null`) regardless of every other
field — in particular even when the presented `state` matches byte-for-byte. -/
theorem claim_C7 (now ts : Int) (j : Json)
    (ht : getField j "timestamp" = some (Json.num ts))
    (hold : now - ts > 600000) :
    isValidTimestamp now ts = false
    ∧ parseOAuthState now (Except.ok j) = none := by
  have hv : isValidTimestamp now ts = false := by
    unfold isValidTimestamp
    simp only [decide_eq_false_iff_not]
    omega
  refine ⟨hv, ?_⟩
  rw [parseOAuthState_ok, ht]
  cases getField j "state" with
  | none => rfl
  | some js =>
      cases js <;> try rfl
      case str s =>
        cases getField j "codeVerifier" with
        | none => rfl
        | some jcv =>
            cases jcv <;> try rfl
            case str cv =>
              dsimp only
              rw [hv]
              simp

/-- C7 witness: the concrete well-typed cookie `exJsonOld`
(`timestamp = 0`, matching state format) is rejected at `now = 700000`. -/
theorem claim_C7_witness :
    getField exJsonOld "timestamp" = some (Json.num 0)
    ∧ (700000 : Int) - 0 > 600000
    ∧ (isValidTimestamp 700000 0 = false
      ∧ parseOAuthState 700000 (Except.ok exJsonOld) = none) := by
  exact ⟨rfl, by decide, claim_C7 700000 0 exJsonOld rfl (by decide)⟩

/-- C10: the 10-minute freshness check is one-sided — any `timestamp` in the
future (even arbitrarily far) satisfies `isValidTimestamp`, so a well-typed
transaction cookie bearing such a timestamp passes `parseOAuthState`. -/
theorem claim_C10 (now ts : Int) (j : Json) (s cv : String)
    (hs : getField j "state" = some (Json.str s))
    (hcv : getField j "codeVerifier" = some (Json.str cv))
    (ht : getField j "timestamp" = some (Json.num ts))
    (hslen : 16 <= s.length)
    (hfut : now < ts) :
    isValidTimestamp now ts = true
    ∧ parseOAuthState now (Except.ok j) = some ⟨s, cv, ts⟩ := by
  have hv : isValidTimestamp now ts = true := by
    unfold isValidTimestamp
    simp only [decide_eq_true_eq]
    omega
  refine ⟨hv, ?_⟩
  rw [parseOAuthState_ok, hs, hcv, ht]
  dsimp only
  rw [hv]
  unfold isValidState
  simp [hslen]

/-- C10 witness: the concrete cookie `exJsonFuture`, stamped about 3000 years
in the future, passes validation at `now = 1000000`. -/
theorem claim_C10_witness :
    getField exJsonFuture "state" = some (Json.str "0123456789abcdef")
    ∧ getField exJsonFuture "codeVerifier" = some (Json.str "ver")
    ∧ getField exJsonFuture "timestamp" = some (Json.num 100000000000000)
    ∧ 16 <= ("0123456789abcdef" : String).length
    ∧ (1000000 : Int) < 100000000000000
    ∧ (isValidTimestamp 1000000 100000000000000 = true
      ∧ parseOAuthState 1000000 (Except.ok exJsonFuture)
          = some ⟨"0123456789abcdef", "ver", 100000000000000⟩) := by
  exact ⟨rfl, rfl, rfl, by decide, by decide,
    claim_C10 1000000 100000000000000 exJsonFuture "0123456789abcdef" "ver"
      rfl rfl rfl (by decide) (by decide)⟩

/-- Length of the unpadded base64url encoding: four characters per full
3-byte group, plus two or three characters for a trailing 1- or 2-byte
group. -/
theorem base64urlEncode_length (bs : List Nat) :
    (base64urlEncode bs).length =
      4 * (bs.length / 3) +
        (if bs.length % 3 = 0 then 0
         else if bs.length % 3 = 1 then 2 else 3) := by
  induction bs using base64urlEncode.induct with
  | case1 => simp [base64urlEncode]
  | case2 b1 => simp [base64urlEncode]
  | case3 b1 b2 => simp [base64urlEncode]
  | case4 b1 b2 b3 rest ih =>
      simp only [base64urlEncode, List.length_cons, ih]
      split_ifs <;> omega

/-- C5: `generatePKCE` (parameterized by the platform's 32 random bytes and
SHA-256 function) returns a pair whose `codeChallenge` is exactly the
base64url encoding of the hash of the returned `codeVerifier`'s bytes (the
PKCE round-trip), and whose `codeVerifier` is the URL-safe base64url encoding
of the 32 random bytes — a 43-character string. -/
theorem claim_C5 (sha256 : List Nat → List Nat) (rnd : List Nat)
    (hlen : rnd.length = 32) :
    (generatePKCE sha256 rnd).2
      = String.mk (base64urlEncode
          (sha256 (utf8Bytes (generatePKCE sha256 rnd).1)))
    ∧ (generatePKCE sha256 rnd).1 = String.mk (base64urlEncode rnd)
    ∧ (generatePKCE sha256 rnd).1.length = 43 := by
  refine ⟨rfl, rfl, ?_⟩
  show (String.mk (base64urlEncode rnd)).length = 43
  simp [String.length, base64urlEncode_length, hlen]

/-- C5 witness: the round-trip at the concrete byte list `List.range 32`
with the identity in place of the hash parameter. -/
theorem claim_C5_witness :
    (List.range 32).length = 32
    ∧ ((generatePKCE (fun bs => bs) (List.range 32)).2
        = String.mk (base64urlEncode ((fun (bs : List Nat) => bs)
            (utf8Bytes (generatePKCE (fun bs => bs) (List.range 32)).1)))
      ∧ (generatePKCE (fun bs => bs) (List.range 32)).1
          = String.mk (base64urlEncode (List.range 32))
      ∧ (generatePKCE (fun bs => bs) (List.range 32)).1.length = 43) := by
  exact ⟨by decide, claim_C5 (fun bs => bs) (List.range 32) (by decide)⟩

/-- `check` on an absent record: re-initialization. -/
theorem check_fresh (cfg : RLConfig) (st : RLState) (ip : String) (now : Int)
    (h : lookupA st ip = none) :
    check cfg st ip now =
      (mkCheckResult cfg ⟨0, now + cfg.windowMs⟩,
       insertA st ip ⟨0, now + cfg.windowMs⟩) := by
  unfold check
  rw [h]

/-- `check` on a present record whose window has not elapsed: pure read. -/
theorem check_of_record (cfg : RLConfig) (st : RLState) (ip : String)
    (now : Int) (c : Nat) (rt : Int)
    (h : lookupA st ip = some ⟨c, rt⟩) (hrt : ¬ rt < now) :
    check cfg st ip now = (mkCheckResult cfg ⟨c, rt⟩, st) := by
  unfold check
  rw [h]
  dsimp only
  rw [if_neg hrt]

/-- `increment` on a present record bumps its count. -/
theorem increment_of_record (st : RLState) (ip : String) (c : Nat) (rt : Int)
    (h : lookupA st ip = some ⟨c, rt⟩) :
    increment st ip = insertA st ip ⟨c + 1, rt⟩ := by
  unfold increment
  rw [h]

/-- Invariant of sequential check-then-increment traffic within one window:
starting from a record `⟨c, rt⟩` with every request time inside the window
(`¬ rt < t`) and `c ≤ maxRequests`, after the remaining requests the
admitted total grows to `min (c + |ts|) maxRequests` and the record's count
is that same value, with `resetTime` untouched. -/
theorem runSeq_invariant (cfg : RLConfig) (ip : String) (ts : List Int) :
    ∀ (st : RLState) (c adm : Nat) (rt : Int),
      lookupA st ip = some ⟨c, rt⟩ → (∀ t ∈ ts, ¬ rt < t) →
      c ≤ cfg.maxRequests →
      (runSeq cfg ip st adm ts).2
          = adm + (min (c + ts.length) cfg.maxRequests - c)
      ∧ lookupA (runSeq cfg ip st adm ts).1 ip
          = some ⟨min (c + ts.length) cfg.maxRequests, rt⟩ := by
  induction ts with
  | nil =>
      intro st c adm rt h _ hc
      have hmin : min (c + ([] : List Int).length) cfg.maxRequests = c := by
        simp
        omega
      rw [hmin]
      constructor
      · simp [runSeq]
      · simpa [runSeq] using h
  | cons t ts ih =>
      intro st c adm rt h hwin hc
      have hrt : ¬ rt < t := hwin t (by simp)
      have hch := check_of_record cfg st ip t c rt h hrt
      have hwin' : ∀ u ∈ ts, ¬ rt < u := fun u hu => hwin u (by simp [hu])
      by_cases hallow : c < cfg.maxRequests
      · have hstep : runSeq cfg ip st adm (t :: ts)
            = runSeq cfg ip (insertA st ip ⟨c + 1, rt⟩) (adm + 1) ts := by
          simp [runSeq, hch, mkCheckResult, hallow,
            increment_of_record st ip c rt h]
        obtain ⟨ih1, ih2⟩ := ih (insertA st ip ⟨c + 1, rt⟩) (c + 1) (adm + 1)
          rt (lookupA_insertA_self st ip ⟨c + 1, rt⟩) hwin' (by omega)
        have emin : min (c + 1 + ts.length) cfg.maxRequests
            = min (c + (ts.length + 1)) cfg.maxRequests := by omega
        rw [emin] at ih1 ih2
        constructor
        · rw [hstep, ih1]
          simp only [List.length_cons]
          omega
        · rw [hstep]
          simpa using ih2
      · have hstep : runSeq cfg ip st adm (t :: ts)
            = runSeq cfg ip st adm ts := by
          simp [runSeq, hch, mkCheckResult, hallow]
        have emin : min (c + ts.length) cfg.maxRequests
            = min (c + (ts.length + 1)) cfg.maxRequests := by omega
        obtain ⟨ih1, ih2⟩ := ih st c adm rt h hwin' hc
        rw [emin] at ih1 ih2
        constructor
        · rw [hstep, ih1]
          simp only [List.length_cons]
        · rw [hstep]
          simpa using ih2

/-- C4: `check` observes exactly the spec's effective record — re-initialized
to `count = 0, resetTime = now + windowMs` when no record exists or the
window has elapsed — and returns `allowed = count < maxRequests`,
`remaining = max(0, maxRequests - count - 1)` and the record's `resetTime`;
consequently under sequential check-then-increment usage starting from a
fresh key, a window of at least `maxRequests` requests admits exactly
`maxRequests`, and every further `check` within the window returns
`allowed = false` with `remaining = 0`. -/
theorem claim_C4 (cfg : RLConfig) (st s : RLState) (ip : String)
    (now t0 t' : Int) (ts : List Int)
    (hfresh : lookupA st ip = none)
    (hwin : ∀ t ∈ ts, t ≤ t0 + cfg.windowMs)
    (hsat : cfg.maxRequests ≤ ts.length + 1)
    (ht' : t' ≤ t0 + cfg.windowMs) :
    (check cfg s ip now).1 = checkSpecModel cfg s ip now
    ∧ lookupA (check cfg s ip now).2 ip
        = some (effectiveRecordSpec cfg s ip now)
    ∧ (runSeq cfg ip st 0 (t0 :: ts)).2 = cfg.maxRequests
    ∧ (check cfg (runSeq cfg ip st 0 (t0 :: ts)).1 ip t').1.allowed = false
    ∧ (check cfg (runSeq cfg ip st 0 (t0 :: ts)).1 ip t').1.remaining = 0 := by
  have hspec1 : (check cfg s ip now).1 = checkSpecModel cfg s ip now := by
    unfold check checkSpecModel effectiveRecordSpec
    cases hl : lookupA s ip with
    | none => rfl
    | some r0 =>
        dsimp only
        by_cases hr : r0.resetTime < now
        · rw [if_pos hr, if_pos hr]
        · rw [if_neg hr, if_neg hr]
  have hspec2 : lookupA (check cfg s ip now).2 ip
      = some (effectiveRecordSpec cfg s ip now) := by
    unfold check effectiveRecordSpec
    cases hl : lookupA s ip with
    | none => exact lookupA_insertA_self s ip _
    | some r0 =>
        dsimp only
        by_cases hr : r0.resetTime < now
        · rw [if_pos hr, if_pos hr]
          exact lookupA_insertA_self s ip _
        · rw [if_neg hr, if_neg hr]
          exact hl
  -- the sequential scenario
  have hch0 := check_fresh cfg st ip t0 hfresh
  have hrt' : ¬ t0 + cfg.windowMs < t' := by omega
  have hwin' : ∀ u ∈ ts, ¬ t0 + cfg.windowMs < u := by
    intro u hu
    have := hwin u hu
    omega
  by_cases hm : 0 < cfg.maxRequests
  · -- the first request is admitted
    have hstep : runSeq cfg ip st 0 (t0 :: ts)
        = runSeq cfg ip
            (insertA (insertA st ip ⟨0, t0 + cfg.windowMs⟩) ip
              ⟨1, t0 + cfg.windowMs⟩) 1 ts := by
      simp [runSeq, hch0, mkCheckResult, hm,
        increment_of_record _ ip 0 (t0 + cfg.windowMs)
          (lookupA_insertA_self st ip ⟨0, t0 + cfg.windowMs⟩)]
    obtain ⟨hrun1, hrun2⟩ := runSeq_invariant cfg ip ts _ 1 1
      (t0 + cfg.windowMs)
      (lookupA_insertA_self (insertA st ip ⟨0, t0 + cfg.windowMs⟩) ip
        ⟨1, t0 + cfg.windowMs⟩) hwin' (by omega)
    have hminm : min (1 + ts.length) cfg.maxRequests = cfg.maxRequests := by
      omega
    rw [hminm] at hrun1 hrun2
    have hfinal : (runSeq cfg ip st 0 (t0 :: ts)).2 = cfg.maxRequests := by
      rw [hstep, hrun1]
      omega
    have hrec : lookupA (runSeq cfg ip st 0 (t0 :: ts)).1 ip
        = some ⟨cfg.maxRequests, t0 + cfg.windowMs⟩ := by
      rw [hstep]
      exact hrun2
    have hchf := check_of_record cfg _ ip t' cfg.maxRequests
      (t0 + cfg.windowMs) hrec hrt'
    refine ⟨hspec1, hspec2, hfinal, ?_, ?_⟩
    · rw [hchf]
      simp [mkCheckResult]
    · rw [hchf]
      simp [mkCheckResult]
  · -- maxRequests = 0: nothing is ever admitted
    have hm0 : cfg.maxRequests = 0 := by omega
    have hstep : runSeq cfg ip st 0 (t0 :: ts)
        = runSeq cfg ip (insertA st ip ⟨0, t0 + cfg.windowMs⟩) 0 ts := by
      simp [runSeq, hch0, mkCheckResult, hm0]
    obtain ⟨hrun1, hrun2⟩ := runSeq_invariant cfg ip ts _ 0 0
      (t0 + cfg.windowMs)
      (lookupA_insertA_self st ip ⟨0, t0 + cfg.windowMs⟩) hwin' (by omega)
    have hminm : min (0 + ts.length) cfg.maxRequests = 0 := by omega
    rw [hminm] at hrun1 hrun2
    have hfinal : (runSeq cfg ip st 0 (t0 :: ts)).2 = cfg.maxRequests := by
      rw [hstep, hrun1, hm0]
    have hrec : lookupA (runSeq cfg ip st 0 (t0 :: ts)).1 ip
        = some ⟨0, t0 + cfg.windowMs⟩ := by
      rw [hstep]
      exact hrun2
    have hchf := check_of_record cfg _ ip t' 0 (t0 + cfg.windowMs) hrec hrt'
    refine ⟨hspec1, hspec2, hfinal, ?_, ?_⟩
    · rw [hchf]
      simp [mkCheckResult, hm0]
    · rw [hchf]
      simp [mkCheckResult, hm0]

/-- C4 witness: the spec's scenario `maxRequests = 5, windowMs = 60000` —
six requests from key `"X"` inside one window admit exactly five, and the
next `check` is denied with `remaining = 0`. -/
theorem claim_C4_witness :
    lookupA ([] : RLState) "X" = none
    ∧ (∀ t ∈ ([1, 2, 3, 4, 5] : List Int),
        t ≤ 0 + (⟨5, 60000⟩ : RLConfig).windowMs)
    ∧ (⟨5, 60000⟩ : RLConfig).maxRequests
        ≤ ([1, 2, 3, 4, 5] : List Int).length + 1
    ∧ (6 : Int) ≤ 0 + (⟨5, 60000⟩ : RLConfig).windowMs
    ∧ ((check ⟨5, 60000⟩ [] "X" 0).1 = checkSpecModel ⟨5, 60000⟩ [] "X" 0
      ∧ lookupA (check ⟨5, 60000⟩ [] "X" 0).2 "X"
          = some (effectiveRecordSpec ⟨5, 60000⟩ [] "X" 0)
      ∧ (runSeq ⟨5, 60000⟩ "X" [] 0 (0 :: [1, 2, 3, 4, 5])).2
          = (⟨5, 60000⟩ : RLConfig).maxRequests
      ∧ (check ⟨5, 60000⟩
          (runSeq ⟨5, 60000⟩ "X" [] 0 (0 :: [1, 2, 3, 4, 5])).1 "X"
            6).1.allowed = false
      ∧ (check ⟨5, 60000⟩
          (runSeq ⟨5, 60000⟩ "X" [] 0 (0 :: [1, 2, 3, 4, 5])).1 "X"
            6).1.remaining = 0) := by
  exact ⟨rfl, by decide, by decide, by decide,
    claim_C4 ⟨5, 60000⟩ [] [] "X" 0 0 6 [1, 2, 3, 4, 5] rfl (by decide)
      (by decide) (by decide)⟩
